import Mathlib

/-!
Shallow embedding of `teuthology/orchestra/daemon/state.py`.

The file models the two daemon-control backends of the repository:

* `DaemonState` — the process-backed backend, which holds a live remote
  process handle (`proc`).  Remote effects (`remote.run`, `run.wait`) are
  modelled explicitly: `remote.run` is a deterministic step on a `World`
  recording every launch, and the outcome of `run.wait` is supplied as an
  oracle argument (`Option WaitErr`, `none` meaning the wait returned
  normally).
* `SystemDState` — the service-unit backend, which is stateless and issues
  `systemctl` shell commands.  Its observations of the remote host (the
  stdout of the pid pipeline, the lines produced by the `show` and `status`
  commands) are inputs to the corresponding functions; the `grep` stages of
  those remote pipelines are modelled as explicit line filters.

String helpers reimplement the Python primitives used by the source
(`str.strip`, `str.split('=', 1)`, `str.isdigit`, substring search for the
`grep` patterns, and the `status=(\d+)` capture of `re.match` with a greedy
leading `.*`, which selects the last occurrence).
-/

namespace DaemonModel

/-- Python `str.strip()`: drop leading and trailing whitespace. -/
def pyStrip (s : String) : String :=
  String.mk (((s.toList.dropWhile Char.isWhitespace).reverse.dropWhile
    Char.isWhitespace).reverse)

/-- Does the first list start with the second? -/
def listStarts : List Char → List Char → Bool
  | _, [] => true
  | [], _ :: _ => false
  | c :: cs, p :: ps => c == p && listStarts cs ps

/-- Does the first list contain the second as a contiguous sublist? -/
def containsSub : List Char → List Char → Bool
  | [], pat => pat.isEmpty
  | c :: cs, pat => listStarts (c :: cs) pat || containsSub cs pat

/-- Python `str.isdigit()`: nonempty and all characters are decimal digits. -/
def pyIsDigit (s : String) : Bool :=
  !s.toList.isEmpty && s.toList.all Char.isDigit

/-- Value of a decimal digit string, as `int()` reads one. -/
def digitsToNat (cs : List Char) : Nat :=
  cs.foldl (fun n c => 10 * n + (c.toNat - 48)) 0

/-- `systemd_cmd_templ = 'sudo systemctl ... '` instantiated, as
`str.format` produces it. -/
def systemd_cmd_templ (action daemon id_ : String) : String :=
  "sudo systemctl " ++ action ++ " " ++ daemon ++ "@" ++ id_

/-- `get_systemd_cmd(action, daemon, id_)`: the `rgw` role maps to the
`radosgw` unit family with the id prefixed by `rgw.`; every family is
prefixed with `ceph-`. -/
def get_systemd_cmd (action daemon id_ : String) : String :=
  let p : String × String :=
    if daemon = "rgw" then ("radosgw", "rgw." ++ id_) else (daemon, id_)
  systemd_cmd_templ action ("ceph-" ++ p.1) p.2

/-- `str.split('.')` over the character list, accumulating the current
segment. -/
def splitDotAux : List Char → List Char → List String
  | [], acc => [String.mk acc.reverse]
  | c :: cs, acc =>
      if c = '.' then String.mk acc.reverse :: splitDotAux cs []
      else splitDotAux cs (c :: acc)

/-- `self.type_ = self.role.split('.')[-1]`. -/
def type_of (role : String) : String :=
  (splitDotAux role.toList []).getLastD ""

/-- `self.role.replace('.', '-')`, used by the journal command. -/
def roleDashed (role : String) : String :=
  String.mk (role.toList.map (fun c => if c = '.' then '-' else c))

/-- The command strings computed by `SystemDState._set_commands`. -/
structure SystemDCmds where
  start_cmd : String
  stop_cmd : String
  restart_cmd : String
  show_cmd : String
  status_cmd : String
  output_cmd : String
deriving DecidableEq, Repr

/-- `SystemDState._set_commands`, computed from the role and id at
construction time. -/
def set_commands (role id_ : String) : SystemDCmds :=
  { start_cmd := get_systemd_cmd "start" (type_of role) id_
    stop_cmd := get_systemd_cmd "stop" (type_of role) id_
    restart_cmd := get_systemd_cmd "restart" (type_of role) id_
    show_cmd := get_systemd_cmd "show" (type_of role) id_
    status_cmd := get_systemd_cmd "status" (type_of role) id_
    output_cmd := "sudo journalctl -u " ++ roleDashed role ++ "@" ++ id_
      ++ " -t " ++ roleDashed role ++ " -n 10" }

/-- A keyword-argument value as passed to `remote.run` (strings, argument
lists, booleans cover the uses in this module). -/
inductive Val where
  | str (s : String)
  | list (xs : List String)
  | bool (b : Bool)
deriving DecidableEq, Repr

/-- A Python dict of keyword arguments, as an insertion-ordered
association list. -/
abbrev Dict := List (String × Val)

/-- `d[k] = v`: replace the value of an existing key in place, else append. -/
def dictSet : Dict → String → Val → Dict
  | [], k, v => [(k, v)]
  | (k2, v2) :: rest, k, v =>
      if k2 = k then (k, v) :: rest else (k2, v2) :: dictSet rest k v

/-- `d.update(kw)`: set every key of `kw` in `d`, in order. -/
def dictUpdate (d kw : Dict) : Dict :=
  kw.foldl (fun acc p => dictSet acc p.1 p.2) d

/-- `d[k]` as an option (`none` models a `KeyError`). -/
def dictGet : Dict → String → Option Val
  | [], _ => none
  | (k2, v) :: rest, k => if k2 = k then some v else dictGet rest k

/-- An opaque handle returned by `remote.run`. -/
structure RunHandle where
  hid : Nat
deriving DecidableEq, Repr

/-- The remote-execution collaborator's visible state: a fresh-handle
counter and the record of every `remote.run` launch (its positional
arguments and keyword arguments). -/
structure World where
  nextHandle : Nat
  launches : List (List String × Dict)
deriving DecidableEq, Repr

/-- `remote.run(*cmd_args, **cmd_kwargs)`: returns a fresh handle and
records the launch. -/
def World.runCmd (w : World) (args : List String) (kwargs : Dict) :
    RunHandle × World :=
  (⟨w.nextHandle⟩, ⟨w.nextHandle + 1, w.launches ++ [(args, kwargs)]⟩)

/-- The ways `orchestra.run.wait` can fail, per the docstring of
`DaemonState.stop` (CommandFailedError, CommandCrashedError,
ConnectionLostError). -/
inductive WaitErr where
  | commandFailed
  | commandCrashed
  | connectionLost
deriving DecidableEq, Repr

/-- The process-backed daemon state: launch template and the held
process handle (`self.proc`). -/
structure DaemonState where
  role : String
  id_ : String
  command_args : List String
  command_kwargs : Dict
  proc : Option RunHandle
deriving DecidableEq, Repr

/-- `DaemonState.running()`: `self.proc is not None`. -/
def DaemonState.running (s : DaemonState) : Bool :=
  s.proc.isSome

/-- `DaemonState.reset()`: clear the held handle without termination. -/
def DaemonState.reset (s : DaemonState) : DaemonState :=
  { s with proc := none }

/-- `DaemonState.stop(timeout)`.  If not running, logs an error and
returns.  Otherwise closes the process's stdin and waits; the oracle `wo`
is the outcome of `run.wait` (`none` = returned normally).  Only
`CommandFailedError` is caught (and logged); any other failure propagates
before `self.proc = None` is reached. -/
def DaemonState.stop (s : DaemonState) (wo : Option WaitErr) :
    DaemonState × Option WaitErr :=
  if s.running then
    match wo with
    | none => ({ s with proc := none }, none)
    | some WaitErr.commandFailed => ({ s with proc := none }, none)
    | some e => (s, some e)
  else
    (s, none)

/-- `DaemonState.restart(*args, **kwargs)` after the stop of a previous
process (if any) has succeeded: `cmd_args = list(self.command_args)` is a
copy extended with `args`, but `cmd_kwargs = self.command_kwargs` aliases
the stored dict, so `cmd_kwargs.update(kwargs)` mutates the stored
template before the launch. -/
def restartLaunch (s : DaemonState) (args : List String) (kwargs : Dict)
    (w : World) : DaemonState × World × Option WaitErr :=
  let cmd_args := s.command_args ++ args
  let cmd_kwargs := dictUpdate s.command_kwargs kwargs
  let r := w.runCmd cmd_args cmd_kwargs
  ({ s with command_kwargs := cmd_kwargs, proc := some r.1 }, r.2, none)

/-- `DaemonState.restart(*args, **kwargs)`: stop the old process if one is
held (a failure other than `CommandFailedError` propagates and aborts the
restart), then relaunch. -/
def DaemonState.restart (s : DaemonState) (args : List String)
    (kwargs : Dict) (wo : Option WaitErr) (w : World) :
    DaemonState × World × Option WaitErr :=
  match s.proc with
  | some _ =>
    let r := s.stop wo
    match r.2 with
    | some e => (r.1, w, some e)
    | none => restartLaunch r.1 args kwargs w
  | none => restartLaunch s args kwargs w

/-- `DaemonState.start(timeout)`: warns if already running, then always
calls `self.restart()` with no extra arguments. -/
def DaemonState.start (s : DaemonState) (wo : Option WaitErr) (w : World) :
    DaemonState × World × Option WaitErr :=
  s.restart [] [] wo w

/-- Failures of `DaemonState.restart_with_args`: a propagated wait
failure from the stop of the old process, or the `KeyError` /
`AttributeError` raised when `self.command_kwargs['args']` is absent or
not a list. -/
inductive RwaErr where
  | waitErr (e : WaitErr)
  | argsKeyErr
deriving DecidableEq, Repr

/-- The launch step of `DaemonState.restart_with_args(extra_args)`: the
stored dict is shallow-copied and its `args` list deep-copied, so the
launch uses `args + extra_args` while the stored template is untouched. -/
def rwaLaunch (s : DaemonState) (extra_args : List String) (w : World) :
    DaemonState × World × Option RwaErr :=
  match dictGet s.command_kwargs "args" with
  | some (Val.list xs) =>
    let cmd_kwargs :=
      dictUpdate s.command_kwargs [("args", Val.list (xs ++ extra_args))]
    let r := w.runCmd s.command_args cmd_kwargs
    ({ s with proc := some r.1 }, r.2, none)
  | _ => (s, w, some RwaErr.argsKeyErr)

/-- `DaemonState.restart_with_args(extra_args)`: stop the old process if
one is held, then relaunch with the `args` list of a copied keyword dict
extended by `extra_args`. -/
def DaemonState.restart_with_args (s : DaemonState)
    (extra_args : List String) (wo : Option WaitErr) (w : World) :
    DaemonState × World × Option RwaErr :=
  match s.proc with
  | some _ =>
    let r := s.stop wo
    match r.2 with
    | some e => (r.1, w, some (RwaErr.waitErr e))
    | none => rwaLaunch r.1 extra_args w
  | none => rwaLaunch s extra_args w

/-- `DaemonState.wait(timeout)`: `run.wait` inside `try`/`except`/`finally`
— every failure is re-raised, and `self.proc = None` runs on both paths. -/
def DaemonState.wait (s : DaemonState) (wo : Option WaitErr) :
    DaemonState × Option WaitErr :=
  match wo with
  | none => ({ s with proc := none }, none)
  | some e => ({ s with proc := none }, some e)

/-- `SystemDState.pid`: the stdout of the remote ps/grep/awk pipeline is
stripped; if it is not a digit string the result is `None`, else
`int(pid_string)`. -/
def SystemDState.pid (pidOut : String) : Option Nat :=
  let pid_string := pyStrip pidOut
  if pyIsDigit pid_string then some (digitsToNat pid_string.toList)
  else none

/-- `SystemDState.running()`: the PID when it is `> 0`, else `None`
(`None > 0` is false in Python 2). -/
def SystemDState.running (pidOut : String) : Option Nat :=
  match SystemDState.pid pidOut with
  | some p => if p > 0 then some p else none
  | none => none

/-- The outcome of a service-unit operation: the remote commands it
issued, and the exception it raised (always `none`, these methods raise
nothing themselves). -/
structure SysDOutcome where
  cmds : List String
  raised : Option String
deriving DecidableEq, Repr

/-- `SystemDState.stop(timeout)`: if not running, logs an error and
returns; else issues the stop-unit command. -/
def SystemDState.stop (c : SystemDCmds) (pidOut : String) : SysDOutcome :=
  match SystemDState.running pidOut with
  | none => ⟨[], none⟩
  | some _ => ⟨[c.stop_cmd], none⟩

/-- `SystemDState.restart(*args, **kwargs)`: issues the start-unit command
when not running, else the restart-unit command. -/
def SystemDState.restart (c : SystemDCmds) (pidOut : String) : SysDOutcome :=
  match SystemDState.running pidOut with
  | none => ⟨[c.start_cmd], none⟩
  | some _ => ⟨[c.restart_cmd], none⟩

/-- `SystemDState.start(timeout)`: performs a restart when already
running, else issues the start-unit command. -/
def SystemDState.start (c : SystemDCmds) (pidOut : String) : SysDOutcome :=
  match SystemDState.running pidOut with
  | none => ⟨[c.start_cmd], none⟩
  | some _ => SystemDState.restart c pidOut

/-- `SystemDState.restart_with_args(extra_args)`: warns that the extra
arguments are unsupported and performs a plain restart. -/
def SystemDState.restart_with_args (c : SystemDCmds) (pidOut : String)
    (extra_args : List String) : SysDOutcome :=
  SystemDState.restart c pidOut

/-- `SystemDState.wait(timeout)`: logs that wait is unsupported and
returns without issuing anything. -/
def SystemDState.wait (timeout : Nat) : SysDOutcome :=
  ⟨[], none⟩

/-- `SystemDState.wait_for_exit()`: logs that it is unsupported and
returns without issuing anything. -/
def SystemDState.wait_for_exit : SysDOutcome :=
  ⟨[], none⟩

/-- `grep -i state`, the filter applied remotely to the `show` output. -/
def grepIState (line : String) : Bool :=
  containsSub (line.toList.map Char.toLower) ("state".toList)

/-- Is there an occurrence of `Main` followed (anywhere later) by
`code=exited`? -/
def mainThenCodeExited : List Char → Bool
  | [] => false
  | c :: cs =>
      (listStarts (c :: cs) ("Main".toList)
        && containsSub ((c :: cs).drop 4) ("code=exited".toList))
      || mainThenCodeExited cs

/-- `grep 'Main.*code=exited'`, the filter applied remotely to the
`status` output. -/
def grepMainCodeExited (line : String) : Bool :=
  mainThenCodeExited line.toList

/-- `line.strip().split('=', 1)`: split at the first `=`; `none` models
the `ValueError` of unpacking a 1-element split. -/
def splitFirstEq : List Char → Option (List Char × List Char)
  | [] => none
  | c :: rest =>
      if c = '=' then some ([], rest)
      else
        match splitFirstEq rest with
        | some p => some (c :: p.1, p.2)
        | none => none

/-- `parse_line` inside `SystemDState.check_status`: strip the line,
split at the first `=`, strip key and value. -/
def parse_line (line : String) : Option (String × String) :=
  match splitFirstEq (pyStrip line).toList with
  | some p => some (pyStrip (String.mk p.1), pyStrip (String.mk p.2))
  | none => none

/-- String-valued dict assignment with Python semantics (replace in
place, else append). -/
def sdictSet : List (String × String) → String → String →
    List (String × String)
  | [], k, v => [(k, v)]
  | (k2, v2) :: rest, k, v =>
      if k2 = k then (k, v) :: rest else (k2, v2) :: sdictSet rest k v

/-- Lookup in a string-valued dict (`none` models a `KeyError`). -/
def sdictGet : List (String × String) → String → Option String
  | [], _ => none
  | (k2, v) :: rest, k => if k2 = k then some v else sdictGet rest k

/-- The `show_dict` built by `SystemDState.check_status` from the
(grep-filtered) `show` output; `none` when some line fails to parse
(Python would raise a `ValueError`). -/
def showDict (showOut : List String) :
    Option (List (String × String)) :=
  (showOut.filter grepIState).foldl
    (fun acc l =>
      match acc, parse_line l with
      | some d, some kv => some (sdictSet d kv.1 kv.2)
      | _, _ => none)
    (some [])

/-- All captures of `status=(\d+)` in a line, in order of occurrence. -/
def statusCaptures : List Char → List Nat
  | [] => []
  | c :: cs =>
      let rest := statusCaptures cs
      if listStarts (c :: cs) ("status=".toList) then
        let ds := ((c :: cs).drop 7).takeWhile Char.isDigit
        if ds.isEmpty then rest else digitsToNat ds :: rest
      else rest

/-- `re.match('.*status=(\d+).*', line)`: the greedy leading `.*`
backtracks from the end, so the capture is taken at the last occurrence
of `status=` followed by at least one digit; `none` models the
`AttributeError` of `.groups()` on a failed match. -/
def lastStatusCapture (line : String) : Option Nat :=
  (statusCaptures line.toList).getLast?

/-- The result of `SystemDState.check_status`: a returned value (`none`
for a healthy active unit, `some 0` for a clean zero exit), a raised
`CommandFailedError(start_cmd, exit_code, remote)` — whose `journalDumped`
flag records that the journal command ran first — or one of the
parsing/lookup errors of the method (`ValueError`, `KeyError`,
`IndexError`/failed grep, `AttributeError`). -/
inductive CheckStatusResult where
  | ret (code : Option Nat)
  | cmdFailed (cmd : String) (code : Nat) (journalDumped : Bool)
  | pyErr
deriving DecidableEq, Repr

/-- `SystemDState.check_status()`, over the raw lines of the remote
`show` and `status` outputs (the grep stages of the two pipelines are
applied here, as the remote shell would). -/
def SystemDState.check_status (c : SystemDCmds)
    (showOut statusOut : List String) : CheckStatusResult :=
  match showDict showOut with
  | none => CheckStatusResult.pyErr
  | some d =>
    match sdictGet d "ActiveState", sdictGet d "SubState" with
    | some active_state, some _ =>
      if active_state = "active" then CheckStatusResult.ret none
      else
        match (statusOut.filter grepMainCodeExited).getLast? with
        | none => CheckStatusResult.pyErr
        | some line =>
          match lastStatusCapture line with
          | none => CheckStatusResult.pyErr
          | some exit_code =>
            if exit_code ≠ 0 then
              CheckStatusResult.cmdFailed c.start_cmd exit_code true
            else CheckStatusResult.ret (some exit_code)
    | _, _ => CheckStatusResult.pyErr

/-- A world with no prior launches. -/
def w0 : World := ⟨0, []⟩

/-- A sample non-running process-backed daemon. -/
def osdDaemon : DaemonState :=
  { role := "osd"
    id_ := "1"
    command_args := ["daemon-helper"]
    command_kwargs :=
      [("args", Val.list ["ceph-osd", "-i", "1"]), ("wait", Val.bool false)]
    proc := none }

/-- The same daemon while a process handle is held. -/
def osdDaemonRunning : DaemonState :=
  { osdDaemon with proc := some ⟨7⟩ }

/-- Claim C2: for every role kind and id the unit-action command is
`sudo systemctl {action} ceph-{kind}@{id}`, except that the `rgw` kind
uses the `radosgw` unit family with the id prefixed by `rgw.`; in
particular role `rgw` id `a` yields `sudo systemctl start
ceph-radosgw@rgw.a` and role `osd` id `3` yields
`sudo systemctl start ceph-osd@3`. -/
theorem c2_systemd_cmd (action kind id_ : String) (h : kind ≠ "rgw") :
    get_systemd_cmd action kind id_
        = "sudo systemctl " ++ action ++ " " ++ ("ceph-" ++ kind) ++ "@" ++ id_
      ∧ get_systemd_cmd action "rgw" id_
        = "sudo systemctl " ++ action ++ " " ++ "ceph-radosgw" ++ "@"
            ++ ("rgw." ++ id_)
      ∧ (set_commands "rgw" "a").start_cmd
        = "sudo systemctl start ceph-radosgw@rgw.a"
      ∧ (set_commands "osd" "3").start_cmd
        = "sudo systemctl start ceph-osd@3" := by
  refine ⟨?_, rfl, by decide, by decide⟩
  simp [get_systemd_cmd, systemd_cmd_templ, h]

/-- Witness for C2 at `action = stop`, `kind = osd`, `id = 3`. -/
theorem c2_systemd_cmd_witness :
    get_systemd_cmd "stop" "osd" "3"
        = "sudo systemctl " ++ "stop" ++ " " ++ ("ceph-" ++ "osd") ++ "@" ++ "3"
      ∧ get_systemd_cmd "stop" "rgw" "3"
        = "sudo systemctl " ++ "stop" ++ " " ++ "ceph-radosgw" ++ "@"
            ++ ("rgw." ++ "3")
      ∧ (set_commands "rgw" "a").start_cmd
        = "sudo systemctl start ceph-radosgw@rgw.a"
      ∧ (set_commands "osd" "3").start_cmd
        = "sudo systemctl start ceph-osd@3" :=
  c2_systemd_cmd "stop" "osd" "3" (by decide)

/-- Claim C4: `DaemonState.wait` clears the held handle (so `running()`
is falsy) on every exit path, and any failure of the underlying wait is
propagated unchanged. -/
theorem c4_wait_clears (s : DaemonState) (wo : Option WaitErr) :
    (s.wait wo).1.proc = none
      ∧ (s.wait wo).1.running = false
      ∧ (s.wait wo).2 = wo := by
  cases wo <;> simp [DaemonState.wait, DaemonState.running]

/-- Claim C5, counterexample: a `ConnectionLostError`-class failure of
the underlying wait during `DaemonState.stop` is not swallowed — it
propagates, and the held handle is not cleared. -/
theorem c5_stop_counterexample :
    (osdDaemonRunning.stop (some WaitErr.connectionLost)).2
        = some WaitErr.connectionLost
      ∧ (osdDaemonRunning.stop (some WaitErr.connectionLost)).1.running
        = true := by decide

/-- Claim C5 as amended: during `DaemonState.stop` of a running daemon,
only a `CommandFailedError` from the underlying wait is logged and
swallowed (with the handle cleared, as on success); the other failures
the docstring lists propagate and leave the handle held. -/
theorem c5_stop_amended (s : DaemonState) (h : s.running = true) :
    s.stop none = ({ s with proc := none }, none)
      ∧ s.stop (some WaitErr.commandFailed) = ({ s with proc := none }, none)
      ∧ (∀ e : WaitErr, e ≠ WaitErr.commandFailed → s.stop (some e) = (s, some e)) := by
  refine ⟨by simp [DaemonState.stop, h], by simp [DaemonState.stop, h], ?_⟩
  intro e he
  cases e with
  | commandFailed => exact absurd rfl he
  | commandCrashed => simp [DaemonState.stop, h]
  | connectionLost => simp [DaemonState.stop, h]

/-- Witness for the amended C5 at a concrete running daemon and a
crashed wait. -/
theorem c5_stop_amended_witness :
    osdDaemonRunning.stop (some WaitErr.commandCrashed)
      = (osdDaemonRunning, some WaitErr.commandCrashed) :=
  (c5_stop_amended osdDaemonRunning (by decide)).2.2
    WaitErr.commandCrashed (by decide)

/-- Claim C9: under the service-unit backend the unsupported operations
degrade without raising: `restart_with_args` performs an ordinary
restart discarding the extra arguments, and `wait` and `wait_for_exit`
issue no command, raise nothing and return without blocking. -/
theorem c9_unsupported_degrade (c : SystemDCmds) (pidOut : String)
    (extra_args : List String) (timeout : Nat) :
    SystemDState.restart_with_args c pidOut extra_args
        = SystemDState.restart c pidOut
      ∧ (SystemDState.restart_with_args c pidOut extra_args).raised = none
      ∧ SystemDState.wait timeout = ⟨[], none⟩
      ∧ (SystemDState.wait timeout).cmds = []
      ∧ SystemDState.wait_for_exit = ⟨[], none⟩
      ∧ (SystemDState.wait_for_exit).cmds = [] := by
  refine ⟨rfl, ?_, rfl, rfl, rfl, rfl⟩
  cases h : SystemDState.running pidOut <;>
    simp [SystemDState.restart_with_args, SystemDState.restart, h]

/-- Claim C3, counterexample: extra keyword options passed to
`DaemonState.restart` ARE persisted — the stored template dict is
updated in place, and a subsequent restart with no extras launches with
the earlier call's extras rather than the original stored options. -/
theorem c3_restart_counterexample :
    dictGet osdDaemon.command_kwargs "valgrind" = none
      ∧ (osdDaemon.restart [] [("valgrind", Val.str "yes")] none w0).1.command_kwargs
          ≠ osdDaemon.command_kwargs
      ∧ (((osdDaemon.restart [] [("valgrind", Val.str "yes")] none w0).1.restart
            [] [] none w0).2.1.launches.getLastD ([], [])).2
          ≠ osdDaemon.command_kwargs
      ∧ dictGet (((osdDaemon.restart [] [("valgrind", Val.str "yes")] none
            w0).1.restart [] [] none w0).2.1.launches.getLastD ([], [])).2
            "valgrind"
          = some (Val.str "yes") := by decide

/-- Claim C3 as amended: `DaemonState.restart` merges the extra keyword
options into the stored template in place, so they persist for future
restarts; the extra positional arguments are used for the launch only
and the stored positional template is unchanged. -/
theorem c3_restart_amended (s : DaemonState) (args : List String)
    (kwargs : Dict) (wo : Option WaitErr) (w : World)
    (h : (s.restart args kwargs wo w).2.2 = none) :
    (s.restart args kwargs wo w).1.command_kwargs
        = dictUpdate s.command_kwargs kwargs
      ∧ (s.restart args kwargs wo w).1.command_args = s.command_args
      ∧ (s.restart args kwargs wo w).2.1.launches
          = w.launches
              ++ [(s.command_args ++ args, dictUpdate s.command_kwargs kwargs)] := by
  cases hp : s.proc with
  | none => simp [DaemonState.restart, hp, restartLaunch, World.runCmd]
  | some p =>
    cases wo with
    | none =>
      simp [DaemonState.restart, DaemonState.stop, DaemonState.running, hp,
        restartLaunch, World.runCmd]
    | some e =>
      cases e <;>
        simp_all [DaemonState.restart, DaemonState.stop, DaemonState.running,
          hp, restartLaunch, World.runCmd]

/-- Witness for the amended C3 at a concrete daemon, extra positional
argument and extra keyword option. -/
theorem c3_restart_amended_witness :
    (osdDaemon.restart ["--debug"] [("valgrind", Val.str "yes")] none
          w0).1.command_kwargs
        = dictUpdate osdDaemon.command_kwargs [("valgrind", Val.str "yes")]
      ∧ (osdDaemon.restart ["--debug"] [("valgrind", Val.str "yes")] none
            w0).1.command_args = osdDaemon.command_args
      ∧ (osdDaemon.restart ["--debug"] [("valgrind", Val.str "yes")] none
            w0).2.1.launches
          = w0.launches
              ++ [(osdDaemon.command_args ++ ["--debug"],
                  dictUpdate osdDaemon.command_kwargs
                    [("valgrind", Val.str "yes")])] :=
  c3_restart_amended osdDaemon ["--debug"] [("valgrind", Val.str "yes")]
    none w0 (by decide)

/-- Claim C10: when the stored keyword template holds an `args` list,
`DaemonState.restart_with_args` launches with that list extended by the
extra arguments but leaves the stored template — both the dict and its
`args` entry — unchanged. -/
theorem c10_restart_with_args_frame (s : DaemonState)
    (extra_args : List String) (wo : Option WaitErr) (w : World)
    (xs : List String)
    (hargs : dictGet s.command_kwargs "args" = some (Val.list xs))
    (hok : (s.restart_with_args extra_args wo w).2.2 = none) :
    (s.restart_with_args extra_args wo w).1.command_kwargs = s.command_kwargs
      ∧ dictGet (s.restart_with_args extra_args wo w).1.command_kwargs "args"
          = some (Val.list xs)
      ∧ (s.restart_with_args extra_args wo w).2.1.launches
          = w.launches
              ++ [(s.command_args,
                  dictUpdate s.command_kwargs
                    [("args", Val.list (xs ++ extra_args))])] := by
  cases hp : s.proc with
  | none =>
    simp [DaemonState.restart_with_args, hp, rwaLaunch, hargs, World.runCmd]
  | some p =>
    cases wo with
    | none =>
      simp [DaemonState.restart_with_args, DaemonState.stop,
        DaemonState.running, hp, rwaLaunch, hargs, World.runCmd]
    | some e =>
      cases e <;>
        simp_all [DaemonState.restart_with_args, DaemonState.stop,
          DaemonState.running, hp, rwaLaunch, hargs, World.runCmd]

/-- Witness for C10 at a concrete daemon whose template holds an `args`
list. -/
theorem c10_restart_with_args_frame_witness :
    (osdDaemon.restart_with_args ["--debug"] none w0).1.command_kwargs
        = osdDaemon.command_kwargs
      ∧ dictGet (osdDaemon.restart_with_args ["--debug"] none
            w0).1.command_kwargs "args"
          = some (Val.list ["ceph-osd", "-i", "1"])
      ∧ (osdDaemon.restart_with_args ["--debug"] none w0).2.1.launches
          = w0.launches
              ++ [(osdDaemon.command_args,
                  dictUpdate osdDaemon.command_kwargs
                    [("args",
                      Val.list (["ceph-osd", "-i", "1"] ++ ["--debug"]))])] :=
  c10_restart_with_args_frame osdDaemon ["--debug"] none w0
    ["ceph-osd", "-i", "1"] (by decide) (by decide)

/-- Claim C7: for the process-backed backend `running()` is true exactly
when a process handle is held; it is true immediately after a
successful `restart()` or `start()` and false immediately after a
successful `stop()` or after `reset()`. -/
theorem c7_running_handle (s : DaemonState) (args : List String)
    (kwargs : Dict) (wo : Option WaitErr) (w : World)
    (hre : (s.restart args kwargs wo w).2.2 = none)
    (hst : (s.start wo w).2.2 = none)
    (hsp : (s.stop wo).2 = none) :
    (s.running = true ↔ s.proc ≠ none)
      ∧ (s.restart args kwargs wo w).1.running = true
      ∧ (s.start wo w).1.running = true
      ∧ (s.stop wo).1.running = false
      ∧ s.reset.running = false := by
  refine ⟨?_, ?_, ?_, ?_, by simp [DaemonState.reset, DaemonState.running]⟩
  · cases hp : s.proc <;> simp [DaemonState.running, hp]
  · cases hp : s.proc with
    | none => simp [DaemonState.restart, hp, restartLaunch, World.runCmd,
        DaemonState.running]
    | some p =>
      cases wo with
      | none =>
        simp [DaemonState.restart, DaemonState.stop, DaemonState.running, hp,
          restartLaunch, World.runCmd]
      | some e =>
        cases e <;>
          simp_all [DaemonState.restart, DaemonState.stop,
            DaemonState.running, hp, restartLaunch, World.runCmd]
  · cases hp : s.proc with
    | none => simp [DaemonState.start, DaemonState.restart, hp, restartLaunch,
        World.runCmd, DaemonState.running]
    | some p =>
      cases wo with
      | none =>
        simp [DaemonState.start, DaemonState.restart, DaemonState.stop,
          DaemonState.running, hp, restartLaunch, World.runCmd]
      | some e =>
        cases e <;>
          simp_all [DaemonState.start, DaemonState.restart, DaemonState.stop,
            DaemonState.running, hp, restartLaunch, World.runCmd]
  · cases hp : s.proc with
    | none => simp [DaemonState.stop, DaemonState.running, hp]
    | some p =>
      cases wo with
      | none => simp [DaemonState.stop, DaemonState.running, hp]
      | some e =>
        cases e <;>
          simp_all [DaemonState.stop, DaemonState.running, hp]

/-- Witness for C7 at a concrete daemon and a successful wait oracle. -/
theorem c7_running_handle_witness :
    (osdDaemonRunning.running = true ↔ osdDaemonRunning.proc ≠ none)
      ∧ (osdDaemonRunning.restart [] [] none w0).1.running = true
      ∧ (osdDaemonRunning.start none w0).1.running = true
      ∧ (osdDaemonRunning.stop none).1.running = false
      ∧ osdDaemonRunning.reset.running = false :=
  c7_running_handle osdDaemonRunning [] [] none w0
    (by decide) (by decide) (by decide)

/-- Claim C6: for both backends, `stop` on a non-running daemon never
raises, issues no termination action, and leaves `running()` falsy. -/
theorem c6_stop_not_running (s : DaemonState) (wo : Option WaitErr)
    (c : SystemDCmds) (pidOut : String)
    (h1 : s.running = false) (h2 : SystemDState.running pidOut = none) :
    s.stop wo = (s, none)
      ∧ (s.stop wo).1.running = false
      ∧ SystemDState.stop c pidOut = ⟨[], none⟩
      ∧ SystemDState.running pidOut = none := by
  refine ⟨?_, ?_, ?_, h2⟩
  · simp [DaemonState.stop, h1]
  · simp [DaemonState.stop, h1]
  · simp [SystemDState.stop, h2]

/-- Witness for C6 at a concrete stopped daemon and an empty pid-pipeline
output. -/
theorem c6_stop_not_running_witness :
    osdDaemon.stop none = (osdDaemon, none)
      ∧ (osdDaemon.stop none).1.running = false
      ∧ SystemDState.stop (set_commands "osd" "1") "" = ⟨[], none⟩
      ∧ SystemDState.running "" = none :=
  c6_stop_not_running osdDaemon none (set_commands "osd" "1") ""
    (by decide) (by decide)

/-- Claim C8, counterexample: on pipeline output `"0"` — a parseable
integer that is not positive — `SystemDState.pid` returns `0`, not
`None`; only `running()` maps it to `None`. -/
theorem c8_pid_counterexample :
    SystemDState.pid "0" = some 0
      ∧ SystemDState.pid "0" ≠ none
      ∧ SystemDState.running "0" = none := by decide

/-- Claim C8 as amended: `SystemDState.pid` returns `None` exactly when
the stripped pipeline output is not a (nonnegative) decimal digit
string, and otherwise the parsed integer, which may be `0`; `running()`
returns the PID only when it is strictly positive, mapping a PID of `0`
as well as `None` to `None`. -/
theorem c8_pid_amended (pidOut : String) :
    (SystemDState.pid pidOut = none ↔ pyIsDigit (pyStrip pidOut) = false)
      ∧ (∀ n, SystemDState.pid pidOut = some n
          → n = digitsToNat (pyStrip pidOut).toList)
      ∧ (∀ n, SystemDState.running pidOut = some n
          ↔ SystemDState.pid pidOut = some n ∧ 0 < n)
      ∧ (SystemDState.pid pidOut = some 0
          → SystemDState.running pidOut = none) := by
  refine ⟨?_, ?_, ?_, ?_⟩
  · by_cases h : pyIsDigit (pyStrip pidOut) <;> simp [SystemDState.pid, h]
  · intro n hn
    by_cases h : pyIsDigit (pyStrip pidOut)
    · simp [SystemDState.pid, h] at hn
      exact hn.symm
    · simp [SystemDState.pid, h] at hn
  · intro n
    cases hp : SystemDState.pid pidOut with
    | none => simp [SystemDState.running, hp]
    | some m =>
      by_cases hm : 0 < m <;> simp [SystemDState.running, hp, hm] <;> omega
  · intro h0
    simp [SystemDState.running, h0]

/-- Witness for the amended C8 at pipeline output `" 42 "`. -/
theorem c8_pid_amended_witness :
    SystemDState.running " 42 " = some 42 :=
  ((c8_pid_amended " 42 ").2.2.1 42).mpr (by decide)

/-- Claim C1: `SystemDState.check_status` returns `None` when the parsed
`show` output has `ActiveState = active`; otherwise it takes the last
line of the `status` output matching `Main.*code=exited`, extracts the
trailing `status=N` integer, and for nonzero `N` dumps the journal and
raises a `CommandFailedError` carrying `N` (and the start command),
while for `N = 0` it returns `0` as a clean exit. -/
theorem c1_check_status_spec (c : SystemDCmds)
    (showOut statusOut : List String) (d : List (String × String))
    (hd : showDict showOut = some d)
    (hsub : (sdictGet d "SubState").isSome = true) :
    (sdictGet d "ActiveState" = some "active"
        → SystemDState.check_status c showOut statusOut
            = CheckStatusResult.ret none)
      ∧ (∀ a, sdictGet d "ActiveState" = some a → a ≠ "active"
          → ∀ line n,
            (statusOut.filter grepMainCodeExited).getLast? = some line
          → lastStatusCapture line = some n
          → SystemDState.check_status c showOut statusOut
              = if n = 0 then CheckStatusResult.ret (some 0)
                else CheckStatusResult.cmdFailed c.start_cmd n true) := by
  obtain ⟨sub, hs⟩ := Option.isSome_iff_exists.mp hsub
  constructor
  · intro ha
    simp [SystemDState.check_status, hd, ha, hs]
  · intro a ha hne line n hline hcap
    by_cases hn : n = 0 <;>
      simp [SystemDState.check_status, hd, ha, hs, hne, hline, hcap, hn]

/-- Witness for C1 on the spec's example: a failed unit whose last
matching status line carries `status=1/FAILURE` raises a
`CommandFailedError` with exit code 1 after the journal dump. -/
theorem c1_check_status_spec_witness :
    SystemDState.check_status (set_commands "osd" "1")
        ["ActiveState=failed", "SubState=failed"]
        ["Apr 26 21:29:33 ovh083 systemd: ceph-osd@1.service:",
          "Main process exited, code=exited, status=1/FAILURE"]
      = CheckStatusResult.cmdFailed (set_commands "osd" "1").start_cmd 1
          true := by
  have h := (c1_check_status_spec (set_commands "osd" "1")
      ["ActiveState=failed", "SubState=failed"]
      ["Apr 26 21:29:33 ovh083 systemd: ceph-osd@1.service:",
        "Main process exited, code=exited, status=1/FAILURE"]
      [("ActiveState", "failed"), ("SubState", "failed")]
      (by decide) (by decide)).2 "failed" (by decide) (by decide)
      "Main process exited, code=exited, status=1/FAILURE" 1
      (by decide) (by decide)
  simpa using h

end DaemonModel
